import Mathlib

/-!
Verification of the assertion/test-runner harness (`src/runnable/utils.hpp`),
the coroutine-based `Generator` (`src/runnable/cpp20.cpp`), and the folding
`sum` scenario (`src/runnable/cpp17.cpp`) of the modern-cpp-features
repository, via a shallow embedding: C++ exceptions become `Except` values,
console output becomes a list of emitted strings, and the coroutine becomes an
explicit state machine.
-/

deriving instance DecidableEq for Except

namespace ModernCpp

/-! ### Assertion harness (`src/runnable/utils.hpp`) -/

/-- `class AssertionFailure : public std::exception` (utils.hpp:22-40).
Carries the `file` and `line` it was constructed with; `message` is the
string built in the constructor and returned by `what()`. -/
structure AssertionFailure where
  file : String
  line : Nat
  message : String
deriving DecidableEq, Repr

/-- The `AssertionFailure(file, line)` constructor (utils.hpp:29-34):
`message = "condition assertion failed @ " << file << ":" << line`. -/
def AssertionFailure.make (file : String) (line : Nat) : AssertionFailure :=
  ⟨file, line, "condition assertion failed @ " ++ file ++ ":" ++ toString line⟩

/-- `class ThrowingFailure : public std::exception` (utils.hpp:56-74). -/
structure ThrowingFailure where
  file : String
  line : Nat
  message : String
deriving DecidableEq, Repr

/-- The `ThrowingFailure(file, line)` constructor (utils.hpp:63-68):
`message = "no exception thrown as expected @ " << file << ":" << line`. -/
def ThrowingFailure.make (file : String) (line : Nat) : ThrowingFailure :=
  ⟨file, line, "no exception thrown as expected @ " ++ file ++ ":" ++ toString line⟩

/-- A C++ exception value as visible to the harness: the two harness
exception classes, or anything else (`catch (...)` territory), tagged by a
string standing for its identity. -/
inductive Exc where
  | assertion (e : AssertionFailure)
  | throwing (e : ThrowingFailure)
  | other (what : String)
deriving DecidableEq, Repr

/-- The `ASSERT(cond)` macro (utils.hpp:42-47):
`if (!(cond)) throw AssertionFailure(__FILE__, __LINE__);`. -/
def ASSERT (cond : Bool) (file : String) (line : Nat) : Except Exc Unit :=
  if !cond then .error (.assertion (AssertionFailure.make file line)) else .ok ()

/-- The `ASSERT_EQ(a, b)` macro (utils.hpp:48): `ASSERT((a) == (b))`.
The C++ `==` of the operand type is passed explicitly as `beq`. -/
def ASSERT_EQ {α : Type} (beq : α → α → Bool) (a b : α)
    (file : String) (line : Nat) : Except Exc Unit :=
  ASSERT (beq a b) file line

/-- The `ASSERT_NE(a, b)` macro (utils.hpp:49): `ASSERT((a) != (b))`.
The C++ `!=` of the operand type is passed explicitly as `bne`. -/
def ASSERT_NE {α : Type} (bne : α → α → Bool) (a b : α)
    (file : String) (line : Nat) : Except Exc Unit :=
  ASSERT (bne a b) file line

/-- The `EXPECT_THROW(func)` macro (utils.hpp:76-87): run `func()`; `catch
(...)` swallows any exception and sets `thrown`; if nothing was thrown,
`throw ThrowingFailure(__FILE__, __LINE__)`. -/
def EXPECT_THROW (func : Unit → Except Exc Unit)
    (file : String) (line : Nat) : Except Exc Unit :=
  match func () with
  | .error _ => .ok ()
  | .ok () => .error (.throwing (ThrowingFailure.make file line))

/-- The `RUN_EXAMPLE(func)` macro (utils.hpp:94-107). Returns the list of
strings emitted to `std::cout` (one entry per `<<`-chain up to a flush or
`endl`), paired with `some e` when an unrecognized exception `e` is
re-raised by the final `catch (...) { throw; }`, and `none` when control
returns normally to the caller. -/
def runExample (name : String) (func : Unit → Except Exc Unit) :
    List String × Option Exc :=
  let header := "  " ++ name ++ "... "
  match func () with
  | .ok () => ([header, "OK"], none)
  | .error (.assertion e) => ([header, "FAILED", "    " ++ e.message], none)
  | .error (.throwing e) => ([header, "FAILED", "    " ++ e.message], none)
  | .error e => ([header], some e)

/-! ### Coroutine generator (`src/runnable/cpp20.cpp`)

`Generator<T>` wraps a `std::coroutine_handle<promise_type>`.  Both
`initial_suspend` and `final_suspend` return `suspend_always`, and
`yield_value` stores the yielded value into `promise.state`
(cpp20.cpp:29-45).  A suspended coroutine body is therefore fully described
by the trace of values it has still to `co_yield` before running to its
implicit `co_return`: each `resume()` either pops the next value into the
promise state and suspends at the yield point, or reaches the final suspend
point (after which `done()` is true and the promise state is left as it
was).  Resuming a coroutine suspended at its final suspend point is
undefined behavior in C++ ([coroutine.handle.resumption]); the embedding
makes that explicit as an `Except.error` fault. -/

/-- The suspended coroutine frame reachable through a non-null handle:
the values the body has yet to yield, the current `promise.state`
(cpp20.cpp:44), and whether the coroutine is suspended at its final
suspend point (`handle.done()`). -/
structure Coro (T : Type) where
  pending : List T
  state : Option T
  done : Bool
deriving DecidableEq, Repr

/-- One `handle.resume()` step of a coroutine body that yields each element
of `pending` in turn and then runs to its implicit `co_return`: either the
next `co_yield` stores a value in the promise and suspends, or the body
finishes and suspends at the final suspend point with `done()` true.
Calling this on a `done` coroutine is undefined behavior; the caller
(`Gen.next`) is responsible for never doing so. -/
def Coro.resume {T : Type} (c : Coro T) : Coro T :=
  match c.pending with
  | v :: rest => ⟨rest, some v, false⟩
  | [] => ⟨[], c.state, true⟩

/-- `Generator<T>` (cpp20.cpp:23-85): its one data member is
`promise_type::Handle handle`, which is either null (`{}`, as left behind
by a move) or refers to a coroutine frame. -/
structure Gen (T : Type) where
  handle : Option (Coro T)
deriving DecidableEq, Repr

/-- `Generator::next()` (cpp20.cpp:72-81):
`if (!handle) return {};` then `handle.resume();` — undefined behavior
(modeled as `Except.error ()`) when the coroutine is already suspended at
its final suspend point — then copy `promise().state`, `reset()` the copy
if `handle.done()`, and return it.  Returns the produced
`std::optional<T>` together with the generator's post-state. -/
def Gen.next {T : Type} (g : Gen T) : Except Unit (Option T × Gen T) :=
  match g.handle with
  | none => .ok (none, g)
  | some c =>
    if c.done then .error ()
    else
      let c2 := c.resume
      let st := c2.state
      let st := if c2.done then none else st
      .ok (st, ⟨some c2⟩)

/-- A freshly constructed generator whose coroutine body will yield the
values `vs` in order and then run to completion: suspended at
`initial_suspend` with the promise state still the default-constructed
empty optional. -/
def Gen.fresh {T : Type} (vs : List T) : Gen T :=
  ⟨some ⟨vs, none, false⟩⟩

/-- The move constructor `Generator(Generator &&g)` (cpp20.cpp:58): the new
object takes `g.handle`, and `g.handle = {}`.  Result: (new object,
moved-from source). -/
def Gen.moveCtor {T : Type} (g : Gen T) : Gen T × Gen T :=
  (⟨g.handle⟩, ⟨none⟩)

set_option linter.unusedVariables false in
/-- Move assignment `operator=(Generator &&g)` on distinct objects
(cpp20.cpp:63-67): destroy the current handle (so `dst`'s prior frame is
gone), steal `g.handle`, null out `g.handle`.  Result: (assigned-to
object, moved-from source). -/
def Gen.moveAssignDistinct {T : Type} (dst src : Gen T) : Gen T × Gen T :=
  (⟨src.handle⟩, ⟨none⟩)

/-- Move assignment `operator=(Generator &&g)` when `this == &g`
(cpp20.cpp:61-62): the guard returns `*this` untouched, so the object —
sole argument here, since source and destination alias — is unchanged. -/
def Gen.moveAssignSelf {T : Type} (g : Gen T) : Gen T :=
  g

/-- The loop body of `range_gen(start, end)` (cpp20.cpp:87-96):
`while (start < end) co_yield start++;` yields `end - start` values
counting up from `start`.  Structured over the iteration count so the
trace is a list. -/
def rangeYieldsAux : Nat → Int → List Int
  | 0, _ => []
  | n + 1, start => start :: rangeYieldsAux n (start + 1)

/-- The trace of values `co_yield`ed by `range_gen(start, end)`: the loop
runs while `start < end`, i.e. exactly `(end - start).toNat` times. -/
def rangeYields (start endv : Int) : List Int :=
  rangeYieldsAux (endv - start).toNat start

/-- `range_gen(start, end)` (cpp20.cpp:87-96) as the generator object the
caller receives: a fresh generator over that yield trace. -/
def rangeGen (start endv : Int) : Gen Int :=
  Gen.fresh (rangeYields start endv)

/-- The results of `k` successive `next()` calls on `g`, failing if any of
them hits undefined behavior. -/
def nextTrace {T : Type} (g : Gen T) : Nat → Except Unit (List (Option T))
  | 0 => .ok []
  | k + 1 =>
    match g.next with
    | .error e => .error e
    | .ok (v, g2) =>
      match nextTrace g2 k with
      | .error e => .error e
      | .ok vs => .ok (v :: vs)

/-- The collection loop of `test_coroutines` (cpp20.cpp:100-105):
`while (auto n = gen.next()) vec.push_back(n.value());` — repeatedly call
`next()`, accumulating values, stopping at the first empty result.  `fuel`
bounds the iteration so the function is total; it errors when exhausted. -/
def collectLoop {T : Type} : Nat → Gen T → List T → Except Unit (List T)
  | 0, _, _ => .error ()
  | fuel + 1, g, acc =>
    match g.next with
    | .error e => .error e
    | .ok (none, _) => .ok acc
    | .ok (some v, g2) => collectLoop fuel g2 (acc ++ [v])

/-! ### IEEE-754 binary64 arithmetic (for `src/runnable/cpp17.cpp`)

`test_folding_exprs` (cpp17.cpp:34-47) computes `auto n3 = sum(n0, n2, 3)`
over C++ `double`s and asserts `ASSERT_EQ(n3, 6.3)`.  On the targeted
platforms `double` is IEEE-754 binary64 with round-to-nearest, ties-to-even,
which is exact deterministic arithmetic; we model the positive normal range
with integer pairs: a value is a mantissa/exponent pair `m * 2 ^ e` in
canonical form `2^52 ≤ m < 2^53`, and each operation rounds its exact
rational result back to that form.  `4503599627370496 = 2^52` and
`9007199254740992 = 2^53` below. -/

/-- A positive normal binary64 value `m * 2 ^ e`, canonical when
`2^52 ≤ m < 2^53` (uniqueness of the canonical form makes structural
equality coincide with `==` on the represented doubles). -/
structure F64 where
  m : Int
  e : Int
deriving DecidableEq, Repr

/-- Round the fraction `n / d` (`n ≥ 0`, `d > 0`) to the nearest integer,
ties to even. -/
def roundHalfEvenPos (n d : Int) : Int :=
  let q := n.ediv d
  let r := n.emod d
  if 2 * r < d then q
  else if d < 2 * r then q + 1
  else if q.emod 2 = 0 then q else q + 1

/-- Scale the fraction `n / d` (`n > 0`, `d > 0`) by powers of two until it
lies in the mantissa range `[2^52, 2^53)`, tracking the binary exponent:
returns `(n', d', e)` with `n' / d' = (n / d) * 2 ^ (-e)`. -/
def normScale : Nat → Int → Int → Int → Int × Int × Int
  | 0, n, d, e => (n, d, e)
  | fuel + 1, n, d, e =>
    if n < 4503599627370496 * d then normScale fuel (2 * n) d (e - 1)
    else if 9007199254740992 * d ≤ n then normScale fuel n (2 * d) (e + 1)
    else (n, d, e)

/-- Round the exact positive rational `n / d` to the nearest binary64 value
(round-to-nearest, ties-to-even), in canonical mantissa/exponent form.
The fuel `2200` covers every exponent in the binary64 normal range. -/
def roundQ (n d : Int) : F64 :=
  let s := normScale 2200 n d 0
  let mr := roundHalfEvenPos s.1 s.2.1
  if mr = 9007199254740992 then ⟨4503599627370496, s.2.2 + 1⟩ else ⟨mr, s.2.2⟩

/-- `2 ^ k` as an integer. -/
def pow2 (k : Nat) : Int :=
  Int.ofNat (2 ^ k)

/-- Binary64 addition: the exact sum `a.m * 2^a.e + b.m * 2^b.e`, written
over the common exponent `min a.e b.e`, rounded back to binary64. -/
def add64 (a b : F64) : F64 :=
  let e0 := min a.e b.e
  let num := a.m * pow2 (a.e - e0).toNat + b.m * pow2 (b.e - e0).toNat
  roundQ (num * pow2 e0.toNat) (pow2 (-e0).toNat)

/-- Conversion of a positive C++ `int` to `double` (exact for the small
constants involved, but rounded like any other value). -/
def ofIntD (k : Int) : F64 :=
  roundQ k 1

/-- A positive decimal floating-point literal `n / d` as the `double` the
compiler produces for it. -/
def dlit (n d : Int) : F64 :=
  roundQ n d

/-- The `sum(Args... args)` template (cpp17.cpp:20-25) at the 3-argument
instantiation used by `test_folding_exprs`: the unary left fold
`(... + args)` elaborates to `(a + b) + c`, over `double` once any operand
is a `double`. -/
def sum3 (a b c : F64) : F64 :=
  add64 (add64 a b) c

/-- The value `n3 = sum(n0, n2, 3)` of `test_folding_exprs`
(cpp17.cpp:42-45): `n0 = 1` (an `int`), `n2` a reference to `n1 = 2.3`,
and the literal `3`. -/
def foldSumN3 : F64 :=
  sum3 (ofIntD 1) (dlit 23 10) (ofIntD 3)

/-- `==` on doubles in our representation: canonical forms are unique, so
IEEE equality of positive normal values is structural equality. -/
def f64Beq (a b : F64) : Bool :=
  decide (a = b)

/-! ### Theorems -/

/-- C1: `ASSERT(c)` (`assert_true`) raises an `AssertionFailure`
(ConditionFailure) carrying its location iff `c` is false; when `c` is
true it returns normally with no observable effect. -/
theorem C1_assert_raises_iff_false (c : Bool) (file : String) (line : Nat) :
    (ASSERT c file line = .error (.assertion (AssertionFailure.make file line)) ↔ c = false)
    ∧ (c = true → ASSERT c file line = .ok ()) := by
  cases c <;> simp [ASSERT]

/-- Witness for C1 at the concrete conditions `false` and `true`. -/
theorem C1_assert_raises_iff_false_witness :
    ASSERT false "utils.hpp" 45 = .error (.assertion (AssertionFailure.make "utils.hpp" 45))
    ∧ ASSERT true "utils.hpp" 45 = .ok () :=
  ⟨(C1_assert_raises_iff_false false "utils.hpp" 45).1.mpr rfl,
   (C1_assert_raises_iff_false true "utils.hpp" 45).2 rfl⟩

/-- C2: `EXPECT_THROW(op)` (`expect_failure`) raises a `ThrowingFailure`
(ExpectationFailure) iff `op()` completes without raising; any exception
`op()` raises, of any kind, is swallowed and the call returns normally. -/
theorem C2_expect_throw_spec (op : Unit → Except Exc Unit)
    (file : String) (line : Nat) :
    (EXPECT_THROW op file line = .error (.throwing (ThrowingFailure.make file line))
      ↔ op () = .ok ())
    ∧ (∀ e : Exc, op () = .error e → EXPECT_THROW op file line = .ok ()) := by
  refine ⟨⟨fun h => ?_, fun h => by simp [EXPECT_THROW, h]⟩,
    fun e h => by simp [EXPECT_THROW, h]⟩
  cases hop : op () with
  | ok u => cases u; rfl
  | error e => simp [EXPECT_THROW, hop] at h

/-- Witness for C2: an operation that completes normally triggers the
ExpectationFailure; an operation that raises is swallowed. -/
theorem C2_expect_throw_spec_witness :
    EXPECT_THROW (fun _ => .ok ()) "utils.hpp" 85 =
      .error (.throwing (ThrowingFailure.make "utils.hpp" 85))
    ∧ EXPECT_THROW (fun _ => .error (.other "boom")) "utils.hpp" 85 = .ok () :=
  ⟨(C2_expect_throw_spec (fun _ => .ok ()) "utils.hpp" 85).1.mpr rfl,
   (C2_expect_throw_spec (fun _ => .error (.other "boom")) "utils.hpp" 85).2
     (.other "boom") rfl⟩

/-- C3: `RUN_EXAMPLE` emits the label then `OK` on normal completion;
on an `AssertionFailure` or `ThrowingFailure` it emits `FAILED` plus the
signal's message and returns control (no exception propagates); any other
exception is re-raised after the label was emitted. -/
theorem C3_run_example_classifies (name : String) (op : Unit → Except Exc Unit) :
    (op () = .ok () → runExample name op = (["  " ++ name ++ "... ", "OK"], none))
    ∧ (∀ e : AssertionFailure, op () = .error (.assertion e) →
        runExample name op = (["  " ++ name ++ "... ", "FAILED", "    " ++ e.message], none))
    ∧ (∀ e : ThrowingFailure, op () = .error (.throwing e) →
        runExample name op = (["  " ++ name ++ "... ", "FAILED", "    " ++ e.message], none))
    ∧ (∀ s : String, op () = .error (.other s) →
        runExample name op = (["  " ++ name ++ "... "], some (.other s))) := by
  refine ⟨fun h => by simp [runExample, h], fun e h => by simp [runExample, h],
    fun e h => by simp [runExample, h], fun s h => by simp [runExample, h]⟩

/-- Witness for C3 at a passing, an asserting, an expectation-failing and
an unrecognized-fault example. -/
theorem C3_run_example_classifies_witness :
    runExample "t" (fun _ => .ok ()) = (["  " ++ "t" ++ "... ", "OK"], none)
    ∧ runExample "t" (fun _ => .error (.assertion (AssertionFailure.make "f" 2))) =
        (["  " ++ "t" ++ "... ", "FAILED", "    " ++ (AssertionFailure.make "f" 2).message], none)
    ∧ runExample "t" (fun _ => .error (.throwing (ThrowingFailure.make "f" 3))) =
        (["  " ++ "t" ++ "... ", "FAILED", "    " ++ (ThrowingFailure.make "f" 3).message], none)
    ∧ runExample "t" (fun _ => .error (.other "segfault")) =
        (["  " ++ "t" ++ "... "], some (.other "segfault")) :=
  ⟨(C3_run_example_classifies "t" _).1 rfl,
   (C3_run_example_classifies "t" _).2.1 _ rfl,
   (C3_run_example_classifies "t" _).2.2.1 _ rfl,
   (C3_run_example_classifies "t" _).2.2.2 _ rfl⟩

/-- Unfolding equation of `nextTrace` at a successor count. -/
theorem nextTrace_succ {T : Type} (g : Gen T) (k : Nat) :
    nextTrace g (k + 1) =
      match g.next with
      | .error e => .error e
      | .ok (v, g2) =>
        match nextTrace g2 k with
        | .error e => .error e
        | .ok vs => .ok (v :: vs) :=
  rfl

/-- One `next()` step on a suspended generator with at least one value
still to yield: it returns that value and suspends at the yield point with
the promise holding it. -/
theorem next_cons {T : Type} (v : T) (rest : List T) (st : Option T) :
    (⟨some ⟨v :: rest, st, false⟩⟩ : Gen T).next =
      .ok (some v, ⟨some ⟨rest, some v, false⟩⟩) :=
  rfl

/-- Helper for C4: from a coroutine suspended (not done) with yield trace
`vs` and arbitrary promise state, `vs.length + 1` successive `next()` calls
return each value of `vs` in order and then one empty result. -/
theorem nextTrace_pending {T : Type} (vs : List T) (st : Option T) :
    nextTrace (⟨some ⟨vs, st, false⟩⟩ : Gen T) (vs.length + 1) =
      .ok (vs.map some ++ [none]) := by
  induction vs generalizing st with
  | nil => rfl
  | cons v rest ih =>
    rw [List.length_cons, nextTrace_succ, next_cons]
    simp [ih (some v)]

/-- C4 (amended): a generator over a producer that yields `v0..v(n-1)` and
completes returns exactly those `n` non-empty results in order followed by
one empty result — the call that observes completion; a further call does
not return empty but resumes a coroutine suspended at its final suspend
point (undefined behavior; see the counterexample).  Concretely,
`range_gen(0, 5)` collected until empty yields `[0, 1, 2, 3, 4]`. -/
theorem C4_generator_sequence (T : Type) (vs : List T) :
    nextTrace (Gen.fresh vs) (vs.length + 1) = .ok (vs.map some ++ [none])
    ∧ nextTrace (rangeGen 0 5) 6 = .ok [some 0, some 1, some 2, some 3, some 4, none]
    ∧ collectLoop 10 (rangeGen 0 5) [] = .ok [0, 1, 2, 3, 4] :=
  ⟨nextTrace_pending vs none, by decide, by decide⟩

/-- C4 counterexample: the claim's "empty results thereafter" fails on the
code.  On `range_gen(0, 5)` the seventh `next()` call — the first one after
the empty result that observed completion — does not return empty:
`next()` only checks the handle for null, so it calls `handle.resume()` on
a coroutine suspended at its final suspend point, which is undefined
behavior (cpp20.cpp:72-81 never tests `handle.done()` before resuming). -/
theorem C4_generator_sequence_counterexample :
    nextTrace (rangeGen 0 5) 7 = .error ()
    ∧ ¬ nextTrace (rangeGen 0 5) 7 =
        .ok [some 0, some 1, some 2, some 3, some 4, none, none] := by
  decide

/-- C5 (amended): a moved-from generator (null handle) is the state in
which `next()` is idempotent and empty-returning; a generator still owning
a handle whose coroutine has completed is not: the first `next()` after
completion was observed resumes the finished coroutine, undefined
behavior. -/
theorem C5_completed_next (T : Type) :
    (∀ g : Gen T, g.handle = none → g.next = .ok (none, g))
    ∧ (∀ c : Coro T, c.done = true → (Gen.mk (some c)).next = .error ()) := by
  constructor
  · intro g h
    cases g with
    | mk handle => cases handle with
      | none => rfl
      | some c => exact absurd h (by simp)
  · intro c h
    simp [Gen.next, h]

/-- Witness for C5 (amended) at a concrete null-handle generator and a
concrete completed coroutine frame. -/
theorem C5_completed_next_witness :
    (Gen.mk (none : Option (Coro Int))).next = .ok (none, Gen.mk none)
    ∧ (Gen.mk (some (⟨[], none, true⟩ : Coro Int))).next = .error () :=
  ⟨(C5_completed_next Int).1 _ rfl, (C5_completed_next Int).2 _ rfl⟩

/-- C5 counterexample: the claim is false as stated.  `range_gen(0, 0)`
completes on the first `next()` (which duly returns empty, leaving the
generator holding a done handle), but the second `next()` does not return
empty with no effect: it resumes the finished coroutine — undefined
behavior — because `Generator::next` (cpp20.cpp:72-81) checks only
`!handle`, never `handle.done()`, before `handle.resume()`. -/
theorem C5_completed_next_counterexample :
    (rangeGen 0 0).next = .ok (none, ⟨some ⟨[], none, true⟩⟩)
    ∧ nextTrace (rangeGen 0 0) 2 = .error ()
    ∧ ¬ nextTrace (rangeGen 0 0) 2 = .ok [none, none] := by
  decide

/-- C6: a moved-from generator — whether by move construction or by move
assignment into another generator — has a null handle, so `next()` on it
immediately returns the empty result with no fault and leaves it
unchanged, exactly the completed-state contract. -/
theorem C6_moved_from_generator (T : Type) (g dst : Gen T) :
    (Gen.moveCtor g).2 = Gen.mk none
    ∧ ((Gen.moveCtor g).2).next = .ok (none, (Gen.moveCtor g).2)
    ∧ (Gen.moveAssignDistinct dst g).2 = Gen.mk none
    ∧ ((Gen.moveAssignDistinct dst g).2).next = .ok (none, (Gen.moveAssignDistinct dst g).2) :=
  ⟨rfl, rfl, rfl, rfl⟩

/-- C7: `ASSERT_EQ(a, b)` is exactly `ASSERT((a) == (b))` and
`ASSERT_NE(a, b)` is exactly `ASSERT((a) != (b))`, for any operand type
with any `==`/`!=` operators: same normal returns, same raised signals. -/
theorem C7_assert_eq_ne_refines_assert {α : Type} (beq bne : α → α → Bool)
    (a b : α) (file : String) (line : Nat) :
    ASSERT_EQ beq a b file line = ASSERT (beq a b) file line
    ∧ ASSERT_NE bne a b file line = ASSERT (bne a b) file line
    ∧ (beq a b = true → ASSERT_EQ beq a b file line = .ok ())
    ∧ (beq a b = false →
        ASSERT_EQ beq a b file line = .error (.assertion (AssertionFailure.make file line)))
    ∧ (bne a b = true → ASSERT_NE bne a b file line = .ok ())
    ∧ (bne a b = false →
        ASSERT_NE bne a b file line = .error (.assertion (AssertionFailure.make file line))) := by
  refine ⟨rfl, rfl, ?_, ?_, ?_, ?_⟩ <;>
    intro h <;> simp [ASSERT_EQ, ASSERT_NE, ASSERT, h]

/-- Witness for C7 over `Nat` with the standard `==` and `!=`. -/
theorem C7_assert_eq_ne_refines_assert_witness :
    ASSERT_EQ (fun x y : Nat => x == y) 1 1 "utils.hpp" 48 = .ok ()
    ∧ ASSERT_NE (fun x y : Nat => x != y) 1 1 "utils.hpp" 49 =
        .error (.assertion (AssertionFailure.make "utils.hpp" 49)) :=
  ⟨(C7_assert_eq_ne_refines_assert (fun x y : Nat => x == y)
      (fun x y : Nat => x != y) 1 1 "utils.hpp" 48).2.2.1 rfl,
   (C7_assert_eq_ne_refines_assert (fun x y : Nat => x == y)
      (fun x y : Nat => x != y) 1 1 "utils.hpp" 49).2.2.2.2.2 rfl⟩

/-- C8: both failure signals carry the file and line they were raised at,
their human-readable message ends with the `file:line` reference, and the
raising sites (`ASSERT` on a false condition, `EXPECT_THROW` on a
non-throwing operation) construct them from exactly that location. -/
theorem C8_failure_signal_location (file : String) (line : Nat) :
    (AssertionFailure.make file line).file = file
    ∧ (AssertionFailure.make file line).line = line
    ∧ (∃ p, (AssertionFailure.make file line).message = p ++ (file ++ ":" ++ toString line))
    ∧ (ThrowingFailure.make file line).file = file
    ∧ (ThrowingFailure.make file line).line = line
    ∧ (∃ p, (ThrowingFailure.make file line).message = p ++ (file ++ ":" ++ toString line))
    ∧ ASSERT false file line = .error (.assertion (AssertionFailure.make file line))
    ∧ EXPECT_THROW (fun _ => .ok ()) file line =
        .error (.throwing (ThrowingFailure.make file line)) := by
  refine ⟨rfl, rfl, ⟨"condition assertion failed @ ", ?_⟩, rfl, rfl,
    ⟨"no exception thrown as expected @ ", ?_⟩, rfl, rfl⟩ <;>
    simp [AssertionFailure.make, ThrowingFailure.make, String.append_assoc]

set_option maxRecDepth 4000 in
/-- C9: the mixed int/double folded sum `sum(1, 2.3, 3)` of
`test_folding_exprs` (cpp17.cpp:42-46), evaluated in IEEE-754 binary64
round-to-nearest-even, is exactly the double `6.3`, so
`ASSERT_EQ(n3, 6.3)` passes with no ConditionFailure. -/
theorem C9_folding_sum_is_6_3 :
    foldSumN3 = dlit 63 10
    ∧ ASSERT_EQ f64Beq foldSumN3 (dlit 63 10) "cpp17.cpp" 46 = .ok () := by
  decide

/-- C10: the self-move-assignment guard `if (this == &g) return *this;`
(cpp20.cpp:61-62) makes `g = std::move(g)` the identity: the handle (and
so the producer state) is not destroyed, and every later `next()` trace is
exactly as if the self-assignment had not occurred. -/
theorem C10_self_move_assign_identity (T : Type) (g : Gen T) (k : Nat) :
    Gen.moveAssignSelf g = g
    ∧ (Gen.moveAssignSelf g).handle = g.handle
    ∧ nextTrace (Gen.moveAssignSelf g) k = nextTrace g k :=
  ⟨rfl, rfl, rfl⟩

end ModernCpp
